import Mathlib

/-!
Verification development for the backend_fabric repository: a shallow
embedding of the ledger transaction submission layer, the degree chaincode,
the connection manager and the error classifier, with theorems settling the
frozen specification claims.
-/

set_option maxRecDepth 100000
set_option maxHeartbeats 2000000

namespace BackendFabric

/-! ## JSON values

JavaScript objects passed through JSON.stringify / JSON.parse are modelled by
a small JSON value type: strings, numeric literals (carried as their rendered
text) and objects with ordered fields, which is exactly the shape of every
value this codebase serializes (JSON.stringify emits object keys in insertion
order). -/

mutual
inductive Json where
  | jstr : String → Json
  | jnum : String → Json
  | jbool : Bool → Json
  | jobj : JsonFields → Json
deriving DecidableEq

inductive JsonFields where
  | nil : JsonFields
  | cons : String → Json → JsonFields → JsonFields
deriving DecidableEq
end

/-- Hex digit for a nibble, lowercase, as Node crypto digest hex uses. -/
def hexDigit (n : Nat) : Char :=
  if n < 10 then Char.ofNat (48 + n) else Char.ofNat (87 + n)

/-- Two-digit lowercase hex rendering of a byte. -/
def hex2 (n : Nat) : String :=
  String.mk [hexDigit (n / 16 % 16), hexDigit (n % 16)]

/-- JSON string escaping as JSON.stringify performs it: quote, backslash and
the named control escapes get a backslash form, other control characters
become a \u00XX escape, and everything else is emitted verbatim. -/
def escapeJsonChar (c : Char) : String :=
  if c = '"' then "\\\""
  else if c = '\\' then "\\\\"
  else if c = '\n' then "\\n"
  else if c = '\r' then "\\r"
  else if c = '\t' then "\\t"
  else if c.toNat = 8 then "\\b"
  else if c.toNat = 12 then "\\f"
  else if c.toNat < 32 then "\\u00" ++ hex2 c.toNat
  else String.singleton c

/-- A JSON string literal: quoted, with JSON.stringify escaping. -/
def jsonQuote (s : String) : String :=
  "\"" ++ String.join (s.data.map escapeJsonChar) ++ "\""

mutual
/-- JSON.stringify for our JSON values: object keys in stored (insertion)
order, no whitespace, exactly as Node renders them. -/
def jsonStringify : Json → String
  | .jstr s => jsonQuote s
  | .jnum n => n
  | .jbool b => if b then "true" else "false"
  | .jobj fs => "\x7b" ++ stringifyFields fs ++ "\x7d"

def stringifyFields : JsonFields → String
  | .nil => ""
  | .cons k v .nil => jsonQuote k ++ ":" ++ jsonStringify v
  | .cons k v (.cons k2 v2 rest) =>
      jsonQuote k ++ ":" ++ jsonStringify v ++ "," ++
        stringifyFields (.cons k2 v2 rest)
end

/-- Field lookup on a JSON object body, first match (JS property access). -/
def fieldsLookup : JsonFields → String → Option Json
  | .nil, _ => none
  | .cons k v rest, key => if k = key then some v else fieldsLookup rest key

/-- Property read on a JSON value: an object yields its field (or nothing,
as JS yields undefined), anything else yields nothing. -/
def jGet (j : Json) (key : String) : Option Json :=
  match j with
  | .jobj fs => fieldsLookup fs key
  | _ => none

/-- Field update on a JSON object body: assignment to an existing key updates
it in place, assignment to a fresh key appends it, as JS property assignment
orders keys. -/
def fieldsSet : JsonFields → String → Json → JsonFields
  | .nil, key, v => .cons key v .nil
  | .cons k w rest, key, v =>
      if k = key then .cons k v rest else .cons k w (fieldsSet rest key v)

/-- Property assignment on a JSON value (no-op on non-objects, which never
occurs on the paths modelled here). -/
def jSet (j : Json) (key : String) (v : Json) : Json :=
  match j with
  | .jobj fs => .jobj (fieldsSet fs key v)
  | other => other

/-! ## UTF-8 and SHA-256

The chaincode hashes Buffer.from(JSON.stringify(...)), i.e. the UTF-8 bytes
of the serialized record, with Node crypto sha256 and a hex digest. Both are
implemented here executably: bytes are Nat values below 256 and 32-bit words
are Nat values reduced mod 2^32. -/

/-- UTF-8 encoding of one character (code point to bytes). -/
def utf8Char (c : Char) : List Nat :=
  let n := c.toNat
  if n < 128 then [n]
  else if n < 2048 then [192 + n / 64, 128 + n % 64]
  else if n < 65536 then [224 + n / 4096, 128 + n / 64 % 64, 128 + n % 64]
  else [240 + n / 262144, 128 + n / 4096 % 64, 128 + n / 64 % 64, 128 + n % 64]

/-- UTF-8 bytes of a string, as Buffer.from(s) produces them. -/
def utf8Bytes (s : String) : List Nat :=
  s.data.flatMap utf8Char

/-- 32-bit right rotation on a Nat-represented word. -/
def rotr32 (n x : Nat) : Nat :=
  ((x >>> n) ||| (x <<< (32 - n))) % 4294967296

/-- SHA-256 round constants. -/
def sha256K : List Nat :=
  [1116352408, 1899447441, 3049323471, 3921009573, 961987163,
   1508970993, 2453635748, 2870763221, 3624381080, 310598401,
   607225278, 1426881987, 1925078388, 2162078206, 2614888103,
   3248222580, 3835390401, 4022224774, 264347078, 604807628,
   770255983, 1249150122, 1555081692, 1996064986, 2554220882,
   2821834349, 2952996808, 3210313671, 3336571891, 3584528711,
   113926993, 338241895, 666307205, 773529912, 1294757372,
   1396182291, 1695183700, 1986661051, 2177026350, 2456956037,
   2730485921, 2820302411, 3259730800, 3345764771, 3516065817,
   3600352804, 4094571909, 275423344, 430227734, 506948616,
   659060556, 883997877, 958139571, 1322822218, 1537002063,
   1747873779, 1955562222, 2024104815, 2227730452, 2361852424,
   2428436474, 2756734187, 3204031479, 3329325298]

/-- SHA-256 working state: the eight 32-bit chaining words. -/
structure Sha256State where
  a : Nat
  b : Nat
  c : Nat
  d : Nat
  e : Nat
  f : Nat
  g : Nat
  h : Nat

/-- SHA-256 initial chaining value. -/
def sha256Init : Sha256State :=
  ⟨1779033703, 3144134277, 1013904242, 2773480762,
   1359893119, 2600822924, 528734635, 1541459225⟩

/-- Message padding: append 0x80, zeros to 56 mod 64, then the bit length as
eight big-endian bytes. -/
def sha256Pad (msg : List Nat) : List Nat :=
  let len := msg.length
  let zeros := (120 - (len + 1) % 64) % 64
  let bitLen := len * 8
  msg ++ [128] ++ List.replicate zeros 0 ++
    [bitLen >>> 56 % 256, bitLen >>> 48 % 256, bitLen >>> 40 % 256,
     bitLen >>> 32 % 256, bitLen >>> 24 % 256, bitLen >>> 16 % 256,
     bitLen >>> 8 % 256, bitLen % 256]

/-- Split a byte list into 64-byte blocks, with fuel for structural
recursion; the fuel is the list length, ample since every step consumes
64 bytes. -/
def chunks64Fuel : Nat → List Nat → List (List Nat)
  | 0, _ => []
  | _, [] => []
  | fuel + 1, l => l.take 64 :: chunks64Fuel fuel (l.drop 64)

/-- Split a byte list into 64-byte blocks. -/
def chunks64 (l : List Nat) : List (List Nat) :=
  chunks64Fuel l.length l

/-- Big-endian 32-bit words from bytes. -/
def bytesToWords : List Nat → List Nat
  | a :: b :: c :: d :: rest =>
      (a * 16777216 + b * 65536 + c * 256 + d) :: bytesToWords rest
  | _ => []

/-- Small sigma 0 of the message schedule. -/
def ssig0 (x : Nat) : Nat := (rotr32 7 x) ^^^ (rotr32 18 x) ^^^ (x >>> 3)

/-- Small sigma 1 of the message schedule. -/
def ssig1 (x : Nat) : Nat := (rotr32 17 x) ^^^ (rotr32 19 x) ^^^ (x >>> 10)

/-- Extend the 16 block words to the 64 schedule words. -/
def extendSchedule : Nat → Array Nat → Array Nat
  | 0, w => w
  | n + 1, w =>
      let i := w.size
      let v := (ssig1 (w.get! (i - 2)) + w.get! (i - 7) +
                ssig0 (w.get! (i - 15)) + w.get! (i - 16)) % 4294967296
      extendSchedule n (w.push v)

/-- One SHA-256 compression round. -/
def sha256Round (w : Array Nat) (st : Sha256State) (i : Nat) : Sha256State :=
  let s1 := (rotr32 6 st.e) ^^^ (rotr32 11 st.e) ^^^ (rotr32 25 st.e)
  let ch := (st.e &&& st.f) ^^^ ((4294967295 - st.e) &&& st.g)
  let t1 := (st.h + s1 + ch + sha256K.getD i 0 + w.get! i) % 4294967296
  let s0 := (rotr32 2 st.a) ^^^ (rotr32 13 st.a) ^^^ (rotr32 22 st.a)
  let mj := (st.a &&& st.b) ^^^ (st.a &&& st.c) ^^^ (st.b &&& st.c)
  let t2 := (s0 + mj) % 4294967296
  ⟨(t1 + t2) % 4294967296, st.a, st.b, st.c,
   (st.d + t1) % 4294967296, st.e, st.f, st.g⟩

/-- Compress one 64-byte block into the chaining state. -/
def sha256Block (st : Sha256State) (block : List Nat) : Sha256State :=
  let w := extendSchedule 48 (Array.mk (bytesToWords block))
  let r := (List.range 64).foldl (sha256Round w) st
  ⟨(st.a + r.a) % 4294967296, (st.b + r.b) % 4294967296,
   (st.c + r.c) % 4294967296, (st.d + r.d) % 4294967296,
   (st.e + r.e) % 4294967296, (st.f + r.f) % 4294967296,
   (st.g + r.g) % 4294967296, (st.h + r.h) % 4294967296⟩

/-- SHA-256 chaining value of a byte message. -/
def sha256Words (msg : List Nat) : Sha256State :=
  (chunks64 (sha256Pad msg)).foldl sha256Block sha256Init

/-- Eight lowercase hex characters of a 32-bit word. -/
def word8Hex (w : Nat) : String :=
  String.mk [hexDigit (w >>> 28 % 16), hexDigit (w >>> 24 % 16),
             hexDigit (w >>> 20 % 16), hexDigit (w >>> 16 % 16),
             hexDigit (w >>> 12 % 16), hexDigit (w >>> 8 % 16),
             hexDigit (w >>> 4 % 16), hexDigit (w % 16)]

/-- crypto.createHash sha256 hex digest of a byte message. -/
def sha256Hex (msg : List Nat) : String :=
  let s := sha256Words msg
  word8Hex s.a ++ word8Hex s.b ++ word8Hex s.c ++ word8Hex s.d ++
  word8Hex s.e ++ word8Hex s.f ++ word8Hex s.g ++ word8Hex s.h

/-! ## JavaScript string and number helpers -/

/-- Substring occurrence on character lists: the needle is a prefix at some
position of the haystack. -/
def occursIn (needle : List Char) : List Char → Bool
  | [] => needle.isEmpty
  | c :: rest => needle.isPrefixOf (c :: rest) || occursIn needle rest

/-- JS String.prototype.includes: substring containment. -/
def jsIncludes (s sub : String) : Bool :=
  occursIn sub.data s.data

/-- JS String.prototype.toLowerCase, for the characters this code base
compares (ASCII patterns). -/
def jsToLower (s : String) : String :=
  String.mk (s.data.map Char.toLower)

/-- JS String.prototype.trim: strip leading and trailing whitespace. -/
def jsTrim (s : String) : String :=
  String.mk
    (((s.data.dropWhile Char.isWhitespace).reverse.dropWhile
      Char.isWhitespace).reverse)

/-- JS parseFloat restricted to plain decimal literals: optional sign,
digits, optional fractional digits, longest prefix; returns the value as a
scaled integer (mantissa, number of fractional digits), or nothing where
parseFloat returns NaN. -/
def jsParseFloat? (s : String) : Option (Int × Nat) :=
  let cs := s.data.dropWhile Char.isWhitespace
  let (neg, cs') :=
    match cs with
    | '-' :: rest => (true, rest)
    | '+' :: rest => (false, rest)
    | _ => (false, cs)
  let intDigits := cs'.takeWhile Char.isDigit
  let rest := cs'.dropWhile Char.isDigit
  let fracDigits :=
    match rest with
    | '.' :: r => r.takeWhile Char.isDigit
    | _ => []
  if intDigits.isEmpty && fracDigits.isEmpty then none
  else
    let ip := intDigits.foldl (fun a c => a * 10 + (c.toNat - 48)) 0
    let fp := fracDigits.foldl (fun a c => a * 10 + (c.toNat - 48)) 0
    let m : Int := (ip * 10 ^ fracDigits.length + fp : Nat)
    some (if neg then -m else m, fracDigits.length)

/-- The GPA range check both layers perform: parseFloat succeeds and the
value lies in [0, 4.0]. -/
def gpaValid (gpa : String) : Bool :=
  match jsParseFloat? gpa with
  | none => false
  | some (m, scale) => 0 ≤ m && m ≤ (4 * 10 ^ scale : Nat)

/-- JS truthiness of a JSON value: empty string and zero are falsy, every
object is truthy. -/
def jsTruthy : Json → Bool
  | .jstr s => !s.isEmpty
  | .jnum n => n != "0"
  | .jbool b => b
  | .jobj _ => true

/-! ## Error taxonomy

The error-handler module defines five custom error classes (ValidationError,
NotFoundError, ConflictError, EndorsementError, ConnectionError); everything
else is thrown as a plain Error carrying only a message. The spec taxonomy
additionally names an UnsupportedKeyError kind; no class of that name exists
anywhere in the source, and the constructor below exists only so that the
corresponding claim can be stated. -/

inductive AppError where
  | validationError : String → AppError
  | notFoundError : String → AppError
  | conflictError : String → AppError
  | endorsementError : String → AppError
  | connectionError : String → AppError
  | unsupportedKeyError : String → AppError
  | genericError : String → AppError
deriving DecidableEq

/-! ## Association-list maps

World state, the private data collection and the user-gateway cache are
keyed maps (ledger KV store, JS Map). They are modelled as association
lists: put prepends the fresh binding and drops any previous binding for the
key, get takes the first match, so each key has at most one live binding. -/

/-- Insert or replace a binding. -/
def alistPut {α : Type} (l : List (String × α)) (k : String) (v : α) :
    List (String × α) :=
  (k, v) :: l.filter (fun e => e.1 != k)

/-- Look a key up (first match). -/
def alistGet {α : Type} : List (String × α) → String → Option α
  | [], _ => none
  | (k', v) :: rest, k => if k' = k then some v else alistGet rest k

/-- Build a JSON field list from pairs, in order. -/
def fieldsOf : List (String × Json) → JsonFields
  | [] => .nil
  | (k, v) :: rest => .cons k v (fieldsOf rest)

/-! ## Chaincode model: DegreeContract

Shallow embedding of chaincode/lib/degree-contract.js. The transaction
context supplies the client identity attributes and the deterministic
transaction timestamp. World state and the private data collection are
keyed maps; world-state values are the JSON records the contract writes
(putState stores their JSON.stringify bytes and every reader parses them
back, so records are carried structurally), while private-collection values
are kept as the exact serialized string, because its bytes are what the
contract hashes. A thrown chaincode error aborts the transaction, so errors
return no new state. -/

structure Ctx where
  mspId : String
  ou : Option String
  username : Option String
  timestamp : String
deriving DecidableEq

structure ChainState where
  world : List (String × Json)
  priv : List (String × String)
deriving DecidableEq

/-- The role error message of _checkRole, with the `ou || 'unknown'`
fallback. -/
def roleErrorMsg (requiredRole : String) (ctx : Ctx) : String :=
  let actualRole :=
    match ctx.ou with
    | some r => if r = "" then "unknown" else r
    | none => "unknown"
  "Access denied. Required role: " ++ requiredRole ++ ", actual role: " ++
    actualRole ++ " (MSP: " ++ ctx.mspId ++ ")"

/-- _checkRole: the caller's OU certificate attribute must be present,
non-empty and equal to the required role. -/
def checkRole (ctx : Ctx) (requiredRole : String) : Except String Unit :=
  match ctx.ou with
  | some r =>
      if r ≠ "" ∧ r = requiredRole then .ok ()
      else .error (roleErrorMsg requiredRole ctx)
  | none => .error (roleErrorMsg requiredRole ctx)

/-- DegreeExists: getState yields stored bytes for the key. -/
def DegreeExists (st : ChainState) (degreeId : String) : Bool :=
  (alistGet st.world degreeId).isSome

/-- The degree record IssueDegree writes, keys in insertion order; the
`transcriptHash || ''` fallback is the identity on strings. -/
def degreeRecord (ctx : Ctx)
    (degreeId studentId degreeType studentName university major
     classification issueDate transcriptHash : String) : Json :=
  .jobj (fieldsOf
    [("degreeId", .jstr degreeId), ("studentId", .jstr studentId),
     ("degreeType", .jstr degreeType), ("studentName", .jstr studentName),
     ("university", .jstr university), ("major", .jstr major),
     ("classification", .jstr classification), ("issueDate", .jstr issueDate),
     ("transcriptHash", .jstr transcriptHash), ("status", .jstr "ACTIVE"),
     ("timestamp", .jstr ctx.timestamp), ("docType", .jstr "degree")])

/-- IssueDegree: admin only; fails when the degree id is taken; otherwise
stores a fresh ACTIVE degree record and returns it. -/
def IssueDegree (ctx : Ctx) (st : ChainState)
    (degreeId studentId degreeType studentName university major
     classification issueDate transcriptHash : String) :
    Except String (ChainState × Json) :=
  match checkRole ctx "admin" with
  | .error e => .error e
  | .ok _ =>
      if DegreeExists st degreeId then
        .error ("Degree " ++ degreeId ++ " already exists")
      else
        let degree := degreeRecord ctx degreeId studentId degreeType
          studentName university major classification issueDate transcriptHash
        .ok ({ st with world := alistPut st.world degreeId degree }, degree)

/-- RevokeDegree: admin only; the stored record must exist and not already
carry status REVOKED; sets status REVOKED plus the revocation audit fields
and stores the updated record. -/
def RevokeDegree (ctx : Ctx) (st : ChainState) (degreeId reason : String) :
    Except String (ChainState × Json) :=
  match checkRole ctx "admin" with
  | .error e => .error e
  | .ok _ =>
      match alistGet st.world degreeId with
      | none => .error ("Degree " ++ degreeId ++ " does not exist")
      | some degree =>
          if jGet degree "status" = some (.jstr "REVOKED") then
            .error ("Degree " ++ degreeId ++ " is already revoked")
          else
            let degree' :=
              jSet (jSet (jSet (jSet degree "status" (.jstr "REVOKED"))
                "revocationReason" (.jstr reason))
                "revokedAt" (.jstr ctx.timestamp))
                "revokedBy" (.jstr ctx.mspId)
            .ok ({ st with world := alistPut st.world degreeId degree' },
                 degree')

/-- QueryDegree: read the stored record for the id. -/
def QueryDegree (st : ChainState) (degreeId : String) : Except String Json :=
  match alistGet st.world degreeId with
  | none => .error ("Degree " ++ degreeId ++ " does not exist")
  | some v => .ok v

/-- The transient map of UpdateTranscript. A present transcript or
personalInfo entry models a Buffer holding the JSON serialization of that
value (the contract JSON.parses it back); a present gpa entry models a
Buffer holding that raw string. -/
structure TransientMap where
  transcript : Option Json
  gpa : Option String
  personalInfo : Option Json

/-- The private record UpdateTranscript serializes and stores, keys in
insertion order. -/
def serializeTranscriptData (studentId : String) (transcript : Json)
    (gpa : String) (personalInfo : Json) (updatedAt updatedBy : String) :
    String :=
  jsonStringify (.jobj (fieldsOf
    [("studentId", .jstr studentId), ("transcript", transcript),
     ("gpa", .jstr gpa), ("personalInfo", personalInfo),
     ("updatedAt", .jstr updatedAt), ("updatedBy", .jstr updatedBy)]))

/-- The public metadata record UpdateTranscript writes to world state. -/
def transcriptMetadataRecord (studentId updatedAt updatedBy
    transcriptHash : String) : Json :=
  .jobj (fieldsOf
    [("studentId", .jstr studentId), ("updatedAt", .jstr updatedAt),
     ("updatedBy", .jstr updatedBy), ("transcriptHash", .jstr transcriptHash),
     ("docType", .jstr "transcript-metadata")])

/-- The JSON confirmation UpdateTranscript returns. -/
structure UpdateTranscriptResult where
  success : Bool
  studentId : String
  transcriptHash : String
  message : String
deriving DecidableEq

/-- The returned confirmation as the JSON payload the endorsement carries,
keys in insertion order. -/
def updateResultJson (r : UpdateTranscriptResult) : Json :=
  .jobj (fieldsOf
    [("success", .jbool r.success), ("studentId", .jstr r.studentId),
     ("transcriptHash", .jstr r.transcriptHash),
     ("message", .jstr r.message)])

/-- UpdateTranscript: admin only; transcript and gpa must arrive as
transient data; personalInfo defaults to the empty object; the GPA must
parse into [0, 4]; stores the serialized private record in the
TranscriptCollection under the student id, hashes exactly those bytes with
sha256, and writes public metadata carrying that hash under
transcript-(studentId). -/
def UpdateTranscript (ctx : Ctx) (st : ChainState) (studentId : String)
    (tmap : TransientMap) :
    Except String (ChainState × UpdateTranscriptResult) :=
  match checkRole ctx "admin" with
  | .error e => .error e
  | .ok _ =>
      match tmap.transcript, tmap.gpa with
      | some transcript, some gpa =>
          let personalInfo := tmap.personalInfo.getD (.jobj .nil)
          if gpaValid gpa then
            let updatedBy := ctx.mspId
            let updatedAt := ctx.timestamp
            let serialized := serializeTranscriptData studentId transcript
              gpa personalInfo updatedAt updatedBy
            let transcriptHash := sha256Hex (utf8Bytes serialized)
            .ok ({ world := alistPut st.world ("transcript-" ++ studentId)
                     (transcriptMetadataRecord studentId updatedAt updatedBy
                       transcriptHash),
                   priv := alistPut st.priv studentId serialized },
                 { success := true, studentId := studentId,
                   transcriptHash := transcriptHash,
                   message := "Transcript updated successfully" })
          else .error "Invalid GPA value. Must be between 0.0 and 4.0"
      | _, _ => .error "Missing required transient data: transcript and gpa"

/-- The access-grant audit record GrantAccess writes, keys in insertion
order. -/
def grantRecordOf (ctx : Ctx) (studentId targetMSP : String) : Json :=
  .jobj (fieldsOf
    [("studentId", .jstr studentId), ("targetMSP", .jstr targetMSP),
     ("grantedBy", .jstr ctx.mspId), ("grantedAt", .jstr ctx.timestamp),
     ("docType", .jstr "access-grant")])

/-- GrantAccess: students only, and only for their own student id; records
an access-grant audit record. -/
def GrantAccess (ctx : Ctx) (st : ChainState) (studentId targetMSP : String) :
    Except String (ChainState × Json) :=
  if ctx.ou ≠ some "student" then
    .error "Access denied. Only students can grant access to transcripts."
  else if ctx.username ≠ some studentId then
    .error "Access denied. Students can only grant access to their own transcript."
  else
    .ok ({ st with
           world := alistPut st.world
             ("grant-" ++ studentId ++ "-" ++ targetMSP)
             (grantRecordOf ctx studentId targetMSP) },
         grantRecordOf ctx studentId targetMSP)

/-- A state transition of the chaincode: one successfully committed
invocation of a state-changing contract function. -/
inductive ChainStep : ChainState → ChainState → Prop where
  | issue (ctx : Ctx) (st st' : ChainState)
      (degreeId studentId degreeType studentName university major
       classification issueDate transcriptHash : String) (res : Json) :
      IssueDegree ctx st degreeId studentId degreeType studentName university
        major classification issueDate transcriptHash = .ok (st', res) →
      ChainStep st st'
  | revoke (ctx : Ctx) (st st' : ChainState) (degreeId reason : String)
      (res : Json) :
      RevokeDegree ctx st degreeId reason = .ok (st', res) → ChainStep st st'
  | update (ctx : Ctx) (st st' : ChainState) (studentId : String)
      (tmap : TransientMap) (res : UpdateTranscriptResult) :
      UpdateTranscript ctx st studentId tmap = .ok (st', res) →
      ChainStep st st'
  | grant (ctx : Ctx) (st st' : ChainState) (studentId targetMSP : String)
      (res : Json) :
      GrantAccess ctx st studentId targetMSP = .ok (st', res) → ChainStep st st'

/-- The ledger state right after deployment: empty world state and empty
private collection (InitLedger writes nothing). -/
def initialChainState : ChainState := { world := [], priv := [] }

/-- A chaincode state reachable from deployment by committed transactions. -/
def ReachableChainState (st : ChainState) : Prop :=
  Relation.ReflTransGen ChainStep initialChainState st

/-! ## Route layer model: addPrivateTranscript

Shallow embedding of the private-transcript path of routes/api-routes.js.
The network interaction (proposal endorsement and submission) is a
parameter: the endorsement outcome carries either the JSON value the result
bytes parse to, raw non-JSON bytes, an empty payload, or a rejection
message, and the submit outcome either succeeds or rejects with a message.
Everything the function itself does to these outcomes is modelled from the
source. -/

/-- The transcript request body, after Express JSON parsing. -/
structure TranscriptInput where
  studentId : String
  gpa : String
  detailedGrades : Json
  personalInfo : Option Json

/-- A required personalInfo field: present, truthy and a string (a falsy or
non-string value fails the `!x or typeof x` check). -/
def requiredStrOk : Option Json → Bool
  | some (.jstr s) => !s.isEmpty
  | _ => false

/-- An optional personalInfo field: absent or falsy values are skipped;
truthy values must be strings. -/
def optionalStrOk : Option Json → Bool
  | none => true
  | some v => if jsTruthy v then (match v with | .jstr _ => true | _ => false)
              else true

/-- First detailedGrades entry whose value is neither a string nor a
number (the loop throws at the first offender). -/
def firstNonScalarGradeKey : JsonFields → Option String
  | .nil => none
  | .cons k v rest =>
      match v with
      | .jstr _ => firstNonScalarGradeKey rest
      | .jnum _ => firstNonScalarGradeKey rest
      | _ => some k

/-- validateTranscriptData: the input checks of the route layer, in source
order, each failure a ValidationError with the source message. -/
def validateTranscriptData (t : TranscriptInput) : Except AppError Unit :=
  if jsTrim t.studentId = "" then
    .error (.validationError
      "studentId is required and must be a non-empty string")
  else if t.gpa = "" then
    .error (.validationError "gpa is required and must be a string")
  else if !gpaValid t.gpa then
    .error (.validationError
      "gpa must be a valid number between 0.0 and 4.0")
  else
    match t.detailedGrades with
    | .jobj grades =>
        (match firstNonScalarGradeKey grades with
        | some subject =>
            .error (.validationError ("Grade for subject \"" ++ subject ++
              "\" must be a string or number"))
        | none =>
            match t.personalInfo with
            | some (Json.jobj pfs) =>
                let pInfo := Json.jobj pfs
                if !requiredStrOk (jGet pInfo "university") then
                  .error (.validationError
                    "personalInfo.university is required and must be a string")
                else if !requiredStrOk (jGet pInfo "major") then
                  .error (.validationError
                    "personalInfo.major is required and must be a string")
                else if !requiredStrOk (jGet pInfo "dateOfBirth") then
                  .error (.validationError
                    "personalInfo.dateOfBirth is required and must be a string")
                else if !requiredStrOk (jGet pInfo "gender") then
                  .error (.validationError
                    "personalInfo.gender is required and must be a string")
                else if !optionalStrOk (jGet pInfo "nationality") then
                  .error (.validationError
                    "personalInfo.nationality must be a string")
                else if !optionalStrOk (jGet pInfo "contactInfo") then
                  .error (.validationError
                    "personalInfo.contactInfo must be a string")
                else if !optionalStrOk (jGet pInfo "citizenId") then
                  .error (.validationError
                    "personalInfo.citizenId must be a string")
                else .ok ()
            | _ =>
                .error (.validationError
                  "personalInfo is required and must be an object"))
    | _ =>
        .error (.validationError
          "detailedGrades is required and must be an object")

/-- The transient data map the route builds: transcript carries
JSON.stringify(detailedGrades), gpa carries String(gpa), and personalInfo
is attached only when truthy. -/
def clientTransientMap (t : TranscriptInput) : TransientMap :=
  { transcript := some t.detailedGrades,
    gpa := some t.gpa,
    personalInfo :=
      match t.personalInfo with
      | some p => if jsTruthy p then some p else none
      | none => none }

/-- Outcome of the endorse phase as the route observes it. -/
inductive EndorseOutcome where
  | payload : Json → EndorseOutcome
  | payloadRaw : String → EndorseOutcome
  | emptyPayload : EndorseOutcome
  | failed : String → EndorseOutcome

/-- The catch-block classification of addPrivateTranscript: pattern match
the failure message against the known Fabric signatures, in source order;
anything unrecognized is rethrown as a plain Error that wraps the original
message. -/
def classifyTranscriptError (m : String) : AppError :=
  if jsIncludes m "UNAVAILABLE" || jsIncludes m "connect ECONNREFUSED" ||
      jsIncludes m "Failed to connect" then
    .connectionError "Failed to connect to Fabric network. Service unavailable."
  else if jsIncludes m "endorsement policy" ||
      jsIncludes m "failed to collect enough endorsements" then
    .endorsementError
      "Transaction endorsement failed. Endorsement policy not satisfied."
  else if jsIncludes m "MVCC_READ_CONFLICT" ||
      jsIncludes m "mvcc read conflict" then
    .conflictError "Transaction conflict detected. Please retry the operation."
  else if jsIncludes m "transient" ||
      jsIncludes m "expected transient data" then
    .genericError "Required transient data is missing. Internal server error."
  else
    .genericError ("Failed to update transcript: " ++ m)

/-- The JSON body a successful addPrivateTranscript responds with. -/
structure AddTranscriptResult where
  success : Bool
  transactionId : String
  transcriptHash : Option Json
  studentId : String
  message : String
deriving DecidableEq

/-- addPrivateTranscript: validate, build the transient map, endorse, read
resultData.transcriptHash out of the endorsement payload (undefined when
the payload is empty, non-JSON, or lacks the field), submit, respond. -/
def addPrivateTranscript (t : TranscriptInput) (txId : String)
    (endorse : EndorseOutcome) (submitRes : Except String Unit) :
    Except AppError AddTranscriptResult :=
  match validateTranscriptData t with
  | .error e => .error e
  | .ok _ =>
      match endorse with
      | .failed m => .error (classifyTranscriptError m)
      | outcome =>
          let transcriptHash :=
            match outcome with
            | .payload j => jGet j "transcriptHash"
            | _ => none
          match submitRes with
          | .error m => .error (classifyTranscriptError m)
          | .ok _ =>
              .ok { success := true, transactionId := txId,
                    transcriptHash := transcriptHash,
                    studentId := t.studentId,
                    message :=
                      "Transcript added to Private Data Collection successfully" }

/-- Following the specification wording rather than the source (which
computes no client-side hash): the deterministic serialization of the
private fields map, i.e. of the transient map the client builds, keys in
insertion order. -/
def specSerializePrivateFields (t : TranscriptInput) : String :=
  jsonStringify (.jobj (fieldsOf
    ([("transcript", t.detailedGrades), ("gpa", .jstr t.gpa)] ++
     (match (clientTransientMap t).personalInfo with
      | some p => [("personalInfo", p)]
      | none => []))))

/-- Following the specification wording: the sha256 the client would
compute locally over its serialized private fields. -/
def specLocalTranscriptHash (t : TranscriptInput) : String :=
  sha256Hex (utf8Bytes (specSerializePrivateFields t))

/-! ## Degree service model -/

/-- An error caught by the degree-service catch blocks: either one of the
custom ValidationError instances rethrown as-is, or any other failure,
known only by its message. -/
inductive CaughtError where
  | validation : String → CaughtError
  | other : String → CaughtError

/-- The issueDegree catch block: rethrow ValidationError, classify gRPC,
endorsement-policy and MVCC signatures, and wrap everything else in a plain
Error carrying the original message. -/
def classifyIssueDegreeError : CaughtError → AppError
  | .validation m => .validationError m
  | .other m =>
      if jsIncludes m "UNAVAILABLE" || jsIncludes m "connect ECONNREFUSED" ||
          jsIncludes m "Failed to connect" then
        .connectionError
          "Failed to connect to Fabric network. Service unavailable."
      else if jsIncludes m "endorsement policy" ||
          jsIncludes m "failed to collect enough endorsements" then
        .endorsementError
          "Transaction endorsement failed. Endorsement policy not satisfied."
      else if jsIncludes m "MVCC_READ_CONFLICT" ||
          jsIncludes m "mvcc read conflict" then
        .conflictError
          "Transaction conflict detected. Please retry the operation."
      else
        .genericError ("Failed to issue degree: " ++ m)

/-- The verification response verifyDegree builds from a parsed record. -/
structure VerifyOutcome where
  success : Bool
  verified : Bool
  degree : Json
deriving DecidableEq

/-- The `degreeData.status || 'ACTIVE'` default: a falsy or missing status
becomes the string ACTIVE. -/
def statusWithDefault (degreeData : Json) : Json :=
  match jGet degreeData "status" with
  | some v => if jsTruthy v then v else .jstr "ACTIVE"
  | none => .jstr "ACTIVE"

/-- The returned degree object: the parsed record spread into a fresh
object with its status property set to the defaulted status. -/
def spreadWithStatus (degreeData status : Json) : Json :=
  match degreeData with
  | .jobj fs => .jobj (fieldsSet fs "status" status)
  | _ => .jobj (.cons "status" status .nil)

/-- The result verifyDegree builds once the query result parsed: success,
verified tied to the strict comparison of the defaulted status with the
string ACTIVE, and the record with the defaulted status. -/
def verifyDegreeResult (degreeData : Json) : VerifyOutcome :=
  let status := statusWithDefault degreeData
  { success := true,
    verified := decide (status = Json.jstr "ACTIVE"),
    degree := spreadWithStatus degreeData status }

/-- The verifyDegree catch block over a failed evaluate: connection
signatures become ConnectionError, a does-not-exist message becomes
NotFoundError, anything else a plain wrapping Error. -/
def classifyVerifyError (degreeId m : String) : AppError :=
  if jsIncludes m "UNAVAILABLE" || jsIncludes m "connect ECONNREFUSED" ||
      jsIncludes m "Failed to connect" then
    .connectionError "Failed to connect to Fabric network. Service unavailable."
  else if jsIncludes m "does not exist" then
    .notFoundError ("Degree with ID " ++ degreeId ++ " not found")
  else
    .genericError ("Failed to verify degree: " ++ m)

/-- verifyDegree against a chaincode state: validate the id, evaluate
QueryDegree, then build the verification response; evaluate failures go
through the catch-block classification. -/
def verifyDegree (st : ChainState) (degreeId : String) :
    Except AppError VerifyOutcome :=
  if jsTrim degreeId = "" then
    .error (.validationError
      "degreeId is required and must be a non-empty string")
  else
    match QueryDegree st degreeId with
    | .error m => .error (classifyVerifyError degreeId m)
    | .ok degreeData => .ok (verifyDegreeResult degreeData)

/-! ## Error handler model -/

/-- The classification triple detectFabricError returns and the error
handler response carries. -/
structure FabricErrorClass where
  statusCode : Nat
  errorCode : String
  message : String
deriving DecidableEq

/-- detectFabricError: the five Fabric failure signatures, in source order;
errorString is err.toString().toLowerCase(), which for a plain Error is the
lowercased message behind the Error prefix. -/
def detectFabricError (errorMessage : String) : Option FabricErrorClass :=
  let errorString := jsToLower ("Error: " ++ errorMessage)
  if jsIncludes errorMessage "UNAVAILABLE" ||
      jsIncludes errorMessage "connect ECONNREFUSED" ||
      jsIncludes errorMessage "Failed to connect" ||
      jsIncludes errorMessage "14 UNAVAILABLE" ||
      (jsIncludes errorString "grpc" && jsIncludes errorString "unavailable")
      then
    some ⟨503, "GRPC_UNAVAILABLE",
      "Service temporarily unavailable. Please try again later."⟩
  else if jsIncludes errorMessage "endorsement policy" ||
      jsIncludes errorMessage "ENDORSEMENT_POLICY_FAILURE" ||
      jsIncludes errorMessage "failed to collect enough endorsements" ||
      jsIncludes errorMessage "signature set did not satisfy policy" then
    some ⟨500, "ENDORSEMENT_POLICY_FAILURE",
      "Transaction endorsement failed. Endorsement policy not satisfied."⟩
  else if jsIncludes errorMessage "MVCC_READ_CONFLICT" ||
      jsIncludes errorMessage "mvcc read conflict" ||
      jsIncludes errorMessage "version mismatch" then
    some ⟨409, "MVCC_READ_CONFLICT",
      "Transaction conflict detected. Please retry the operation."⟩
  else if jsIncludes errorMessage "transient" ||
      jsIncludes errorMessage "TRANSIENT_DATA_MISSING" ||
      jsIncludes errorMessage "expected transient data" then
    some ⟨500, "TRANSIENT_DATA_MISSING",
      "Required transient data is missing. Internal server error."⟩
  else if jsIncludes errorMessage "validation" ||
      jsIncludes errorMessage "invalid input" ||
      jsIncludes errorMessage "chaincode error" ||
      (jsIncludes errorMessage "does not exist" &&
        !jsIncludes errorMessage "Degree") then
    some ⟨400, "CHAINCODE_VALIDATION_ERROR",
      if errorMessage = "" then "Invalid input data rejected by chaincode."
      else errorMessage⟩
  else none

/-- The error handler path for an error that is none of the five custom
classes: try detectFabricError, else respond 500 with the original message
(or the fixed default when the message is empty). -/
def errorHandlerFallback (m : String) : FabricErrorClass :=
  match detectFabricError m with
  | some c => c
  | none =>
      ⟨500, "INTERNAL_SERVER_ERROR",
       if m = "" then "An unexpected error occurred" else m⟩

/-- errorHandler: instanceof dispatch over the five custom classes, then
the Fabric detection fallback. The unsupportedKeyError constructor names a
spec-only kind with no class in the source, so an error of that kind would
fail every instanceof test and take the fallback path. -/
def errorHandler : AppError → FabricErrorClass
  | .validationError m => ⟨400, "VALIDATION_ERROR", m⟩
  | .notFoundError m => ⟨404, "NOT_FOUND", m⟩
  | .conflictError m => ⟨409, "MVCC_READ_CONFLICT", m⟩
  | .endorsementError m => ⟨500, "ENDORSEMENT_POLICY_FAILURE", m⟩
  | .connectionError m => ⟨503, "GRPC_UNAVAILABLE", m⟩
  | .unsupportedKeyError m => errorHandlerFallback m
  | .genericError m => errorHandlerFallback m

/-! ## Gateway connection model

Shallow embedding of the fabric gateway-connection module: the signer
factory, the per-phase deadlines every connection is configured with, the
idle-entry cleanup of the user-gateway cache, and an interleaving model of
connectWithUserIdentity. -/

/-- A signer produced by the factory: the SDK ECDSA signer, or the custom
forge-based RSA signer. -/
inductive Signer where
  | privateKeySigner
  | rsaSigner
deriving DecidableEq

/-- createSigner over the detected asymmetric key type: ec uses the
built-in signer, rsa and rsa-pss the custom RSA signer; anything else
throws a plain Error (the catch logs and rethrows unchanged; the source
defines no UnsupportedKeyError class). -/
def createSigner (keyType : String) : Except AppError Signer :=
  if keyType = "ec" then .ok .privateKeySigner
  else if keyType = "rsa" || keyType = "rsa-pss" then .ok .rsaSigner
  else .error (.genericError ("Unsupported key type: " ++ keyType))

/-- Whether a signer-factory result failed with the spec taxonomy kind
UnsupportedKeyError. -/
def isUnsupportedKeyFailure : Except AppError Signer → Bool
  | .error (.unsupportedKeyError _) => true
  | _ => false

/-- The evaluate deadline offset every connection is configured with. -/
def evaluateTimeoutMs : Nat := 5000

/-- The endorse deadline offset every connection is configured with. -/
def endorseTimeoutMs : Nat := 15000

/-- The submit deadline offset every connection is configured with. -/
def submitTimeoutMs : Nat := 5000

/-- The commit-status deadline offset every connection is configured
with. -/
def commitStatusTimeoutMs : Nat := 60000

/-- The four per-phase deadlines connectToGateway passes to connect, each
Date.now() plus its offset, in option order (evaluate, endorse, submit,
commitStatus). -/
def connectToGatewayDeadlines (now : Nat) : Nat × Nat × Nat × Nat :=
  (now + evaluateTimeoutMs, now + endorseTimeoutMs,
   now + submitTimeoutMs, now + commitStatusTimeoutMs)

/-- Connection-manager state for the cleanup sweep: the process-wide
default gateway and the user-gateway cache with last-used stamps. -/
structure GatewayManagerState where
  defaultGateway : Option Nat
  userGateways : List (String × Nat)
deriving DecidableEq

/-- The staleness test of the sweep: now minus lastUsed strictly exceeds
maxAge. -/
def isStale (now maxAge lastUsed : Nat) : Bool :=
  decide (maxAge < now - lastUsed)

/-- cleanupStaleConnections: disconnect and drop every cached user entry
whose last use is strictly older than maxAge, count them, and leave the
default gateway alone. -/
def cleanupStaleConnections (mgr : GatewayManagerState) (now maxAge : Nat) :
    GatewayManagerState × Nat :=
  ({ mgr with
     userGateways :=
       mgr.userGateways.filter (fun e => !isStale now maxAge e.2) },
   (mgr.userGateways.filter (fun e => isStale now maxAge e.2)).length)

/-! ### Interleaving model of connectWithUserIdentity

Each call runs two atomic actions separated by the awaited identity load
and gateway connection: first the synchronous cache lookup, then, if that
missed, the creation completion followed synchronously by the cache
insert. Between the two actions any other call may run, because the
lookup-to-insert window spans suspension points. -/

/-- Shared manager state of the race model: the user-gateway cache (keyed
by username, holding gateway ids), the number of gateway creations, and a
fresh-id counter. -/
structure RaceState where
  cache : List (String × Nat)
  createdCount : Nat
  nextId : Nat
deriving DecidableEq

/-- Program counter of one connectWithUserIdentity call. -/
inductive CallPc where
  | start
  | missed
  | done (gatewayId : Nat)
deriving DecidableEq

/-- One atomic action of a call for the given username. -/
def callStep (u : String) (st : RaceState) (pc : CallPc) :
    RaceState × CallPc :=
  match pc with
  | .start =>
      match alistGet st.cache u with
      | some gid => (st, .done gid)
      | none => (st, .missed)
  | .missed =>
      let gid := st.nextId
      ({ cache := alistPut st.cache u gid,
         createdCount := st.createdCount + 1,
         nextId := st.nextId + 1 }, .done gid)
  | .done g => (st, .done g)

/-- Two concurrent calls plus the shared state. -/
structure RaceSystem where
  st : RaceState
  t1 : CallPc
  t2 : CallPc
deriving DecidableEq

/-- Run one scheduled action: true steps the first call, false the
second. -/
def raceStep (u : String) (sys : RaceSystem) (which : Bool) : RaceSystem :=
  if which then
    let (st', p') := callStep u sys.st sys.t1
    { sys with st := st', t1 := p' }
  else
    let (st', p') := callStep u sys.st sys.t2
    { sys with st := st', t2 := p' }

/-- Run a schedule of actions. -/
def runRace (u : String) (sched : List Bool) (sys : RaceSystem) :
    RaceSystem :=
  sched.foldl (raceStep u) sys

/-- Both calls start against an empty cache. -/
def raceInit : RaceSystem :=
  { st := { cache := [], createdCount := 0, nextId := 0 },
    t1 := .start, t2 := .start }

/-- How many cache entries a key holds. -/
def cacheCount (l : List (String × Nat)) (k : String) : Nat :=
  (l.filter (fun e => e.1 == k)).length

/-- Whether a call has returned. -/
def isDone : CallPc → Bool
  | .done _ => true
  | _ => false

/-- One when a call may still reach its creation action, zero once it has
returned. -/
def pendingCount : CallPc → Nat
  | .done _ => 0
  | _ => 1

/-- Invariant of the race model: at most as many creations as calls have
passed their creation action, and each username holds at most one cache
entry. -/
def raceInv (sys : RaceSystem) : Prop :=
  sys.st.createdCount + pendingCount sys.t1 + pendingCount sys.t2 ≤ 2 ∧
  ∀ k, cacheCount sys.st.cache k ≤ 1

/-! ## Degree status invariant -/

/-- Degree records (docType degree) carry status ACTIVE or REVOKED. -/
def DegreeStatusOk (v : Json) : Prop :=
  jGet v "docType" = some (.jstr "degree") →
    jGet v "status" = some (.jstr "ACTIVE") ∨
    jGet v "status" = some (.jstr "REVOKED")

/-- Every stored world-state record satisfies the degree status shape. -/
def WorldDegreeInv (st : ChainState) : Prop :=
  ∀ e ∈ st.world, DegreeStatusOk e.2

/-! ## Concrete instances

Concrete inputs the counterexamples and witnesses run the model on. -/

/-- An admin transaction context. -/
def ctxAdmin : Ctx :=
  { mspId := "Org1MSP", ou := some "admin", username := some "admin",
    timestamp := "2025-01-01T00:00:00.000Z" }

/-- A small detailed-grades object. -/
def cexGrades : Json := .jobj (.cons "mon1" (.jstr "8") .nil)

/-- A personal-info object passing validation. -/
def cexPersonalInfo : Json := .jobj (fieldsOf
  [("university", .jstr "KMA"), ("major", .jstr "CNTT"),
   ("dateOfBirth", .jstr "2000-01-01"), ("gender", .jstr "Nam")])

/-- A valid transcript request body. -/
def cexTranscriptInput : TranscriptInput :=
  { studentId := "S1", gpa := "3.6", detailedGrades := cexGrades,
    personalInfo := some cexPersonalInfo }

/-- An endorsement payload whose transcriptHash is not a sha256 hex digest
of anything (wrong length). -/
def cexEndorsePayload : Json := .jobj (fieldsOf
  [("success", .jbool true), ("studentId", .jstr "S1"),
   ("transcriptHash", .jstr "not-a-hash"),
   ("message", .jstr "Transcript updated successfully")])

/-- The private record bytes the chaincode stores for the concrete
transcript submission. -/
def cexSerialized : String :=
  serializeTranscriptData "S1" cexGrades "3.6" cexPersonalInfo
    "2025-01-01T00:00:00.000Z" "Org1MSP"

/-- The hash the chaincode publishes for the concrete submission. -/
def cexChainHash : String := sha256Hex (utf8Bytes cexSerialized)

/-- The chaincode state after the concrete transcript submission. -/
def cexStateAfter : ChainState :=
  { world := alistPut initialChainState.world "transcript-S1"
      (transcriptMetadataRecord "S1" "2025-01-01T00:00:00.000Z" "Org1MSP"
        cexChainHash),
    priv := alistPut initialChainState.priv "S1" cexSerialized }

/-- The chaincode confirmation for the concrete transcript submission. -/
def cexUpdateResult : UpdateTranscriptResult :=
  { success := true, studentId := "S1", transcriptHash := cexChainHash,
    message := "Transcript updated successfully" }

/-- The response addPrivateTranscript builds for the concrete submission
whose endorsement payload carried the hash not-a-hash. -/
def cexRouteResult : AddTranscriptResult :=
  { success := true, transactionId := "tx1",
    transcriptHash := some (.jstr "not-a-hash"), studentId := "S1",
    message := "Transcript added to Private Data Collection successfully" }

/-- A concrete issued degree record. -/
def wDegree : Json :=
  degreeRecord ctxAdmin "D1" "S1" "Bachelor" "Nguyen Van A" "KMA" "CNTT"
    "Gioi" "2025-01-01" ""

/-- The ledger after issuing the concrete degree. -/
def wState1 : ChainState :=
  { initialChainState with
    world := alistPut initialChainState.world "D1" wDegree }

/-- The concrete degree after revocation. -/
def wDegreeRevoked : Json :=
  jSet (jSet (jSet (jSet wDegree "status" (.jstr "REVOKED"))
    "revocationReason" (.jstr "fraud"))
    "revokedAt" (.jstr ctxAdmin.timestamp))
    "revokedBy" (.jstr ctxAdmin.mspId)

/-- The ledger after revoking the concrete degree. -/
def wState2 : ChainState :=
  { wState1 with world := alistPut wState1.world "D1" wDegreeRevoked }

/-- A stored degree record with no status field (the pre-v1.4 record shape
verifyDegree defends against). -/
def vRecordNoStatus : Json := .jobj (fieldsOf
  [("degreeId", .jstr "D1"), ("studentId", .jstr "S1"),
   ("docType", .jstr "degree")])

/-- A ledger holding only the status-less record. -/
def vStateNoStatus : ChainState :=
  { world := [("D1", vRecordNoStatus)], priv := [] }

/-! ## Supporting lemmas -/

/-- Sanity anchor: the SHA-256 digest of the empty message matches the
published test vector. -/
theorem sha256Hex_empty : sha256Hex [] =
    "e3b0c44298fc1c149afbf4c8996fb92427ae41e4649b934ca495991b7852b855" := by
  decide

/-- Sanity anchor: the SHA-256 digest of "abc" matches the published test
vector. -/
theorem sha256Hex_abc : sha256Hex (utf8Bytes "abc") =
    "ba7816bf8f01cfea414140de5dae2223b00361a396177a9cb410ff61f20015ad" := by
  decide

theorem alistGet_put_self {α : Type} (l : List (String × α)) (k : String)
    (v : α) : alistGet (alistPut l k v) k = some v := by
  simp [alistPut, alistGet]

theorem alistGet_filter_ne {α : Type} (l : List (String × α)) (k k' : String)
    (h : k ≠ k') :
    alistGet (l.filter (fun e => e.1 != k)) k' = alistGet l k' := by
  induction l with
  | nil => rfl
  | cons e rest ih =>
      obtain ⟨k₂, v₂⟩ := e
      by_cases he : k₂ = k
      · subst he
        simpa [List.filter_cons, alistGet, h] using ih
      · by_cases hk : k₂ = k'
        · subst hk
          simp [List.filter_cons, alistGet, he]
        · simp [List.filter_cons, alistGet, he, hk, ih]

theorem alistGet_put_ne {α : Type} (l : List (String × α)) (k k' : String)
    (v : α) (h : k ≠ k') : alistGet (alistPut l k v) k' = alistGet l k' := by
  simp only [alistPut, alistGet, if_neg h]
  exact alistGet_filter_ne l k k' h

theorem mem_alistPut {α : Type} {l : List (String × α)} {k : String} {v : α}
    {e : String × α} (h : e ∈ alistPut l k v) : e = (k, v) ∨ e ∈ l := by
  simp only [alistPut, List.mem_cons, List.mem_filter] at h
  rcases h with h | ⟨h, _⟩
  · exact Or.inl h
  · exact Or.inr h

theorem fieldsLookup_fieldsSet_self :
    ∀ (fs : JsonFields) (k : String) (v : Json),
      fieldsLookup (fieldsSet fs k v) k = some v
  | .nil, k, v => by simp [fieldsSet, fieldsLookup]
  | .cons k₂ v₂ rest, k, v => by
      by_cases hk : k₂ = k
      · simp [fieldsSet, fieldsLookup, hk]
      · simp [fieldsSet, fieldsLookup, hk,
          fieldsLookup_fieldsSet_self rest k v]

theorem fieldsLookup_fieldsSet_ne :
    ∀ (fs : JsonFields) (k key : String) (v : Json), k ≠ key →
      fieldsLookup (fieldsSet fs k v) key = fieldsLookup fs key
  | .nil, k, key, v, h => by simp [fieldsSet, fieldsLookup, h]
  | .cons k₂ v₂ rest, k, key, v, h => by
      by_cases hk : k₂ = k
      · simp [fieldsSet, fieldsLookup, hk, h]
      · by_cases hkey : k₂ = key
        · simp [fieldsSet, fieldsLookup, hk, hkey, Ne.symm h]
        · simp [fieldsSet, fieldsLookup, hk, hkey,
            fieldsLookup_fieldsSet_ne rest k key v h]

/-- A character list is a prefix of itself. -/
theorem isPrefixOf_self : ∀ l : List Char, l.isPrefixOf l = true
  | [] => rfl
  | a :: t => by simp [List.isPrefixOf, isPrefixOf_self t]

/-- A list occurs in anything that ends with it. -/
theorem occursIn_append_self (needle : List Char) :
    ∀ pre : List Char, occursIn needle (pre ++ needle) = true := by
  intro pre
  induction pre with
  | nil =>
      cases needle with
      | nil => rfl
      | cons c t => simp [occursIn, isPrefixOf_self]
  | cons a pre ih => simp [occursIn, ih]

/-- A string contains every suffix of itself. -/
theorem jsIncludes_append_left (p m : String) :
    jsIncludes (p ++ m) m = true := by
  have hd : (p ++ m).data = p.data ++ m.data := rfl
  simp [jsIncludes, hd, occursIn_append_self]

/-- A filter and its negation split the length of a list. -/
theorem length_filter_add_length_filter_not {α : Type} (l : List α)
    (p : α → Bool) :
    (l.filter p).length + (l.filter (fun a => !p a)).length = l.length := by
  induction l with
  | nil => rfl
  | cons a t ih =>
      by_cases h : p a <;> simp [List.filter_cons, h] <;> omega

/-- Each word renders as eight hex characters. -/
theorem word8Hex_length (w : Nat) : (word8Hex w).length = 8 := rfl

/-- Every sha256 hex digest has 64 characters. -/
theorem sha256Hex_length (m : List Nat) : (sha256Hex m).length = 64 := by
  simp [sha256Hex, String.length_append, word8Hex_length]

/-- The returned degree object of verifyDegree always carries the defaulted
status under the status property. -/
theorem jGet_spreadWithStatus :
    ∀ d s : Json, jGet (spreadWithStatus d s) "status" = some s
  | .jobj fs, s => by
      simp [spreadWithStatus, jGet, fieldsLookup_fieldsSet_self]
  | .jstr v, s => by simp [spreadWithStatus, jGet, fieldsLookup]
  | .jnum v, s => by simp [spreadWithStatus, jGet, fieldsLookup]
  | .jbool v, s => by simp [spreadWithStatus, jGet, fieldsLookup]

/-! ## Claim C5: signer factory key families -/

/-- C5 counterexample: on the unidentifiable key type ed25519 the factory
fails with a plain Error carrying the Unsupported key type message, not
with an UnsupportedKeyError; no class of that name exists in the source. -/
theorem createSigner_unsupported_is_plain_error :
    createSigner "ed25519" =
      .error (.genericError "Unsupported key type: ed25519") ∧
    isUnsupportedKeyFailure (createSigner "ed25519") = false :=
  ⟨rfl, rfl⟩

/-- C5 amended: createSigner transparently supports elliptic-curve (ec) and
RSA (rsa, rsa-pss) keys — callers receive a ready signer without branching
on key type — and for every other detected key algorithm it fails with a
plain Error whose message is Unsupported key type: (type); the source
defines no UnsupportedKeyError class. -/
theorem createSigner_supports_ec_and_rsa :
    createSigner "ec" = .ok .privateKeySigner ∧
    createSigner "rsa" = .ok .rsaSigner ∧
    createSigner "rsa-pss" = .ok .rsaSigner ∧
    ∀ t : String, t ≠ "ec" → t ≠ "rsa" → t ≠ "rsa-pss" →
      createSigner t =
        .error (.genericError ("Unsupported key type: " ++ t)) := by
  refine ⟨rfl, rfl, rfl, ?_⟩
  intro t h1 h2 h3
  simp [createSigner, h1, h2, h3]

/-- C5 amended witness at the concrete key type x25519. -/
theorem createSigner_supports_ec_and_rsa_witness :
    createSigner "x25519" =
      .error (.genericError ("Unsupported key type: " ++ "x25519")) ∧
    createSigner "ec" = .ok .privateKeySigner :=
  ⟨createSigner_supports_ec_and_rsa.2.2.2 "x25519" (by decide) (by decide)
     (by decide),
   createSigner_supports_ec_and_rsa.1⟩

/-! ## Claim C6: per-phase deadlines -/

/-- C6: every gateway connection is configured with four per-phase deadline
offsets — evaluate 5000 ms, endorse 15000 ms, submit 5000 ms, commit-status
60000 ms — each deadline being the current clock plus its offset, and the
offsets meet the claimed bounds of at most 15 s endorsement, 5 s
submission, 60 s commit-wait and 5 s evaluate. -/
theorem gateway_per_phase_deadlines (now : Nat) :
    connectToGatewayDeadlines now =
      (now + 5000, now + 15000, now + 5000, now + 60000) ∧
    endorseTimeoutMs ≤ 15 * 1000 ∧ submitTimeoutMs ≤ 5 * 1000 ∧
    commitStatusTimeoutMs ≤ 60 * 1000 ∧ evaluateTimeoutMs ≤ 5 * 1000 :=
  ⟨rfl, by decide, by decide, by decide, by decide⟩

/-! ## Claim C7: idle-entry cleanup -/

/-- C7: cleanupStaleConnections keeps exactly the cached user entries whose
age (now minus lastUsed) is at most maxAge — so it never removes an entry
within maxAge and always removes one strictly older — returns the count of
evicted entries (evicted plus kept equals the original count), and leaves
the process-wide default gateway untouched. Each removal also closes the
entry (disconnectUserGateway), which has no further observable state
here. -/
theorem cleanupStaleConnections_evicts_exactly_stale
    (mgr : GatewayManagerState) (now maxAge : Nat) :
    ((cleanupStaleConnections mgr now maxAge).1.defaultGateway
        = mgr.defaultGateway) ∧
    (∀ e : String × Nat,
      e ∈ (cleanupStaleConnections mgr now maxAge).1.userGateways ↔
        e ∈ mgr.userGateways ∧ now - e.2 ≤ maxAge) ∧
    (cleanupStaleConnections mgr now maxAge).2 +
        (cleanupStaleConnections mgr now maxAge).1.userGateways.length =
      mgr.userGateways.length := by
  refine ⟨rfl, ?_, ?_⟩
  · intro e
    simp [cleanupStaleConnections, List.mem_filter, isStale, Nat.not_lt]
  · exact length_filter_add_length_filter_not mgr.userGateways
      (fun e => isStale now maxAge e.2)

/-! ## Claim C10: verifyDegree verification flag -/

/-- C10: whenever the evaluate phase yields a record, verifyDegree succeeds
and its verified flag is true exactly when the status carried by the
returned degree object is the string ACTIVE; a record without a status
field does not fail but defaults the status to ACTIVE, so verified is
true. -/
theorem verifyDegree_verified_iff_status_active
    (st : ChainState) (degreeId : String) (d : Json)
    (hq : QueryDegree st degreeId = .ok d)
    (hid : ¬ jsTrim degreeId = "") :
    verifyDegree st degreeId = .ok (verifyDegreeResult d) ∧
    ((verifyDegreeResult d).verified = true ↔
      jGet (verifyDegreeResult d).degree "status" = some (.jstr "ACTIVE")) ∧
    (verifyDegreeResult d).success = true ∧
    (jGet d "status" = none → (verifyDegreeResult d).verified = true) := by
  refine ⟨?_, ?_, rfl, ?_⟩
  · unfold verifyDegree
    rw [if_neg hid, hq]
  · simp [verifyDegreeResult, jGet_spreadWithStatus]
  · intro hnone
    simp [verifyDegreeResult, statusWithDefault, hnone]

/-- C10 witness: a stored record with no status field verifies as ACTIVE. -/
theorem verifyDegree_verified_iff_status_active_witness :
    verifyDegree vStateNoStatus "D1" = .ok (verifyDegreeResult vRecordNoStatus) ∧
    (verifyDegreeResult vRecordNoStatus).verified = true := by
  have h := verifyDegree_verified_iff_status_active vStateNoStatus "D1"
    vRecordNoStatus rfl (by decide)
  exact ⟨h.1, h.2.2.2 rfl⟩

/-! ## Claim C3: concurrent connectWithUserIdentity -/

/-- The filters on equal and on unequal keys annihilate. -/
theorem filter_ne_then_eq_nil (l : List (String × Nat)) (k : String) :
    (l.filter (fun e => e.1 != k)).filter (fun e => e.1 == k) = [] := by
  induction l with
  | nil => rfl
  | cons e t ih =>
      by_cases h : e.1 = k <;> simp [List.filter_cons, h, ih]

/-- Inserting a binding leaves exactly one entry for its key. -/
theorem cacheCount_alistPut_self (l : List (String × Nat)) (k : String)
    (v : Nat) : cacheCount (alistPut l k v) k = 1 := by
  simp [cacheCount, alistPut, List.filter_cons, filter_ne_then_eq_nil]

/-- Inserting a binding leaves other keys untouched. -/
theorem cacheCount_alistPut_ne (l : List (String × Nat)) (k k' : String)
    (v : Nat) (h : k ≠ k') :
    cacheCount (alistPut l k v) k' = cacheCount l k' := by
  have hsame : (l.filter (fun e => e.1 != k)).filter (fun e => e.1 == k') =
      l.filter (fun e => e.1 == k') := by
    induction l with
    | nil => rfl
    | cons e t ih =>
        by_cases he : e.1 = k
        · have h2 : (e.1 == k') = false := by simp [he, h]
          simp [List.filter_cons, he, h2, ih, h]
        · by_cases he' : e.1 = k'
          · simp [List.filter_cons, he, he', ih, Ne.symm h]
          · simp [List.filter_cons, he, he', ih]
  simp [cacheCount, alistPut, List.filter_cons, h, hsame]

/-- One scheduled action preserves the race invariant. -/
theorem raceStep_preserves_inv (u : String) (sys : RaceSystem) (b : Bool)
    (h : raceInv sys) : raceInv (raceStep u sys b) := by
  obtain ⟨h1, h2⟩ := h
  have hcache :
      ∀ k, cacheCount (alistPut sys.st.cache u sys.st.nextId) k ≤ 1 := by
    intro k
    by_cases hk : u = k
    · subst hk; simp [cacheCount_alistPut_self]
    · rw [cacheCount_alistPut_ne _ _ _ _ hk]; exact h2 k
  cases b
  · cases ht : sys.t2 with
    | start =>
        cases hc : alistGet sys.st.cache u with
        | some gid =>
            have e1 : raceStep u sys false = { sys with t2 := .done gid } := by
              simp [raceStep, callStep, ht, hc]
            rw [e1]
            rw [ht] at h1
            exact ⟨by simp only [pendingCount] at h1 ⊢; omega, h2⟩
        | none =>
            have e1 : raceStep u sys false = { sys with t2 := .missed } := by
              simp [raceStep, callStep, ht, hc]
            rw [e1]
            rw [ht] at h1
            exact ⟨by simp only [pendingCount] at h1 ⊢; omega, h2⟩
    | missed =>
        have e1 : raceStep u sys false =
            { st := { cache := alistPut sys.st.cache u sys.st.nextId,
                      createdCount := sys.st.createdCount + 1,
                      nextId := sys.st.nextId + 1 },
              t1 := sys.t1, t2 := .done sys.st.nextId } := by
          simp [raceStep, callStep, ht]
        rw [e1]
        rw [ht] at h1
        exact ⟨by simp only [pendingCount] at h1 ⊢; omega, hcache⟩
    | done g =>
        have e1 : raceStep u sys false = { sys with t2 := .done g } := by
          simp [raceStep, callStep, ht]
        rw [e1]
        rw [ht] at h1
        exact ⟨by simp only [pendingCount] at h1 ⊢; omega, h2⟩
  · cases ht : sys.t1 with
    | start =>
        cases hc : alistGet sys.st.cache u with
        | some gid =>
            have e1 : raceStep u sys true = { sys with t1 := .done gid } := by
              simp [raceStep, callStep, ht, hc]
            rw [e1]
            rw [ht] at h1
            exact ⟨by simp only [pendingCount] at h1 ⊢; omega, h2⟩
        | none =>
            have e1 : raceStep u sys true = { sys with t1 := .missed } := by
              simp [raceStep, callStep, ht, hc]
            rw [e1]
            rw [ht] at h1
            exact ⟨by simp only [pendingCount] at h1 ⊢; omega, h2⟩
    | missed =>
        have e1 : raceStep u sys true =
            { st := { cache := alistPut sys.st.cache u sys.st.nextId,
                      createdCount := sys.st.createdCount + 1,
                      nextId := sys.st.nextId + 1 },
              t1 := .done sys.st.nextId, t2 := sys.t2 } := by
          simp [raceStep, callStep, ht]
        rw [e1]
        rw [ht] at h1
        exact ⟨by simp only [pendingCount] at h1 ⊢; omega, hcache⟩
    | done g =>
        have e1 : raceStep u sys true = { sys with t1 := .done g } := by
          simp [raceStep, callStep, ht]
        rw [e1]
        rw [ht] at h1
        exact ⟨by simp only [pendingCount] at h1 ⊢; omega, h2⟩

/-- Any schedule preserves the race invariant. -/
theorem runRace_preserves_inv (u : String) (sched : List Bool)
    (sys : RaceSystem) (h : raceInv sys) : raceInv (runRace u sched sys) := by
  induction sched generalizing sys with
  | nil => exact h
  | cons b rest ih => exact ih (raceStep u sys b) (raceStep_preserves_inv u sys b h)

/-- C3 counterexample: the schedule that runs both cache lookups before
either insert makes two concurrent connectWithUserIdentity calls for the
same username create two gateways, both calls returning. -/
theorem connectWithUserIdentity_double_creation :
    (runRace "alice" [true, false, true, false] raceInit).st.createdCount = 2 ∧
    isDone (runRace "alice" [true, false, true, false] raceInit).t1 = true ∧
    isDone (runRace "alice" [true, false, true, false] raceInit).t2 = true := by
  refine ⟨rfl, rfl, rfl⟩

/-- C3 amended: because the cache lookup of connectWithUserIdentity runs
before the awaited identity load and connection while the insert runs
after them, two concurrent calls for one username can create up to two
gateways (one per call) rather than exactly one; the cache still holds at
most one live entry per username at all times, and a call that starts
after another completed reuses the cached gateway, creating nothing. -/
theorem connectWithUserIdentity_single_entry_bounded_creation :
    (∀ (u : String) (sched : List Bool),
      cacheCount (runRace u sched raceInit).st.cache u ≤ 1 ∧
      (runRace u sched raceInit).st.createdCount ≤ 2) ∧
    (∀ u : String,
      (runRace u [true, true, false] raceInit).st.createdCount = 1 ∧
      isDone (runRace u [true, true, false] raceInit).t2 = true) := by
  constructor
  · intro u sched
    have hinit : raceInv raceInit := by
      refine ⟨by decide, ?_⟩
      intro k
      simp [cacheCount, raceInit]
    have h := runRace_preserves_inv u sched raceInit hinit
    refine ⟨h.2 u, ?_⟩
    have := h.1
    omega
  · intro u
    constructor <;>
      simp [runRace, List.foldl, raceStep, callStep, raceInit, alistGet,
        alistPut, isDone]

/-! ## Claim C9: duplicate IssueDegree -/

/-- Inversion of a successful IssueDegree run. -/
theorem issueDegree_ok_inversion {ctx : Ctx} {st st' : ChainState}
    {dId a1 a2 a3 a4 a5 a6 a7 a8 : String} {res : Json}
    (h : IssueDegree ctx st dId a1 a2 a3 a4 a5 a6 a7 a8 = .ok (st', res)) :
    checkRole ctx "admin" = .ok () ∧ DegreeExists st dId = false ∧
    res = degreeRecord ctx dId a1 a2 a3 a4 a5 a6 a7 a8 ∧
    st' = { st with world := alistPut st.world dId res } := by
  unfold IssueDegree at h
  cases hr : checkRole ctx "admin" with
  | error e => rw [hr] at h; exact absurd h (by simp)
  | ok u =>
      rw [hr] at h
      by_cases hex : DegreeExists st dId
      · rw [if_pos hex] at h
        exact absurd h (by simp)
      · rw [if_neg hex] at h
        injection h with h'
        injection h' with hst hres
        cases u
        refine ⟨rfl, by simpa using hex, hres.symm, ?_⟩
        rw [← hst, hres]

/-- C9: after a successful IssueDegree commits a degree id, the record is
stored with status ACTIVE, and a second IssueDegree for the same id by any
admin caller fails with the already exists error for that id; the failed
invocation writes nothing, so the first record stands. -/
theorem issueDegree_duplicate_rejected
    (ctx ctx2 : Ctx) (st st1 : ChainState) (dId : String)
    (a1 a2 a3 a4 a5 a6 a7 a8 b1 b2 b3 b4 b5 b6 b7 b8 : String) (res : Json)
    (h : IssueDegree ctx st dId a1 a2 a3 a4 a5 a6 a7 a8 = .ok (st1, res))
    (hadmin : ctx2.ou = some "admin") :
    IssueDegree ctx2 st1 dId b1 b2 b3 b4 b5 b6 b7 b8 =
      .error ("Degree " ++ dId ++ " already exists") ∧
    alistGet st1.world dId = some res ∧
    jGet res "status" = some (.jstr "ACTIVE") := by
  obtain ⟨hrole, hex, hres, hst⟩ := issueDegree_ok_inversion h
  have hlook : alistGet st1.world dId = some res := by
    rw [hst]; exact alistGet_put_self st.world dId res
  refine ⟨?_, hlook, ?_⟩
  · unfold IssueDegree
    have hrole2 : checkRole ctx2 "admin" = .ok () := by
      simp [checkRole, hadmin]
    rw [hrole2]
    have hex1 : DegreeExists st1 dId = true := by
      simp [DegreeExists, hlook]
    rw [if_pos hex1]
  · rw [hres]
    simp [degreeRecord, fieldsOf, jGet, fieldsLookup]

/-! ## Claim C4: degree status two-state machine -/

/-- Inversion of a successful RevokeDegree run. -/
theorem revokeDegree_ok_inversion {ctx : Ctx} {st st' : ChainState}
    {dId reason : String} {res : Json}
    (h : RevokeDegree ctx st dId reason = .ok (st', res)) :
    ∃ degree, alistGet st.world dId = some degree ∧
      ¬ jGet degree "status" = some (.jstr "REVOKED") ∧
      res = jSet (jSet (jSet (jSet degree "status" (.jstr "REVOKED"))
          "revocationReason" (.jstr reason)) "revokedAt" (.jstr ctx.timestamp))
          "revokedBy" (.jstr ctx.mspId) ∧
      st' = { st with world := alistPut st.world dId res } := by
  unfold RevokeDegree at h
  split at h
  · exact absurd h (by simp)
  · split at h
    · exact absurd h (by simp)
    next degree hl =>
      split at h
      · exact absurd h (by simp)
      next hs =>
        injection h with h'
        injection h' with hst hres
        exact ⟨degree, hl, hs, hres.symm, by rw [← hst, hres]⟩

/-- Inversion of a successful UpdateTranscript run. -/
theorem updateTranscript_ok_inversion {ctx : Ctx} {st : ChainState}
    {sid : String} {tmap : TransientMap} {st' : ChainState}
    {res : UpdateTranscriptResult}
    (h : UpdateTranscript ctx st sid tmap = .ok (st', res)) :
    ∃ transcript gpa,
      tmap.transcript = some transcript ∧ tmap.gpa = some gpa ∧
      gpaValid gpa = true ∧ res.success = true ∧ res.studentId = sid ∧
      res.transcriptHash = sha256Hex (utf8Bytes (serializeTranscriptData sid
        transcript gpa (tmap.personalInfo.getD (.jobj .nil))
        ctx.timestamp ctx.mspId)) ∧
      st' = { world := alistPut st.world ("transcript-" ++ sid)
                (transcriptMetadataRecord sid ctx.timestamp ctx.mspId
                  res.transcriptHash),
              priv := alistPut st.priv sid (serializeTranscriptData sid
                transcript gpa (tmap.personalInfo.getD (.jobj .nil))
                ctx.timestamp ctx.mspId) } := by
  unfold UpdateTranscript at h
  cases hr : checkRole ctx "admin" with
  | error e => rw [hr] at h; exact absurd h (by simp)
  | ok u =>
      rw [hr] at h
      cases hT : tmap.transcript with
      | none => simp [hT] at h
      | some transcript =>
          cases hG : tmap.gpa with
          | none => simp [hT, hG] at h
          | some gpa =>
              simp only [hT, hG] at h
              by_cases hg : gpaValid gpa
              · rw [if_pos hg] at h
                injection h with h'
                injection h' with hst hres
                refine ⟨transcript, gpa, rfl, rfl, by simpa using hg,
                  ?_, ?_, ?_, ?_⟩ <;> rw [← hres] <;> try rfl
                rw [← hst]
              · rw [if_neg hg] at h
                exact absurd h (by simp)

/-- Inversion of a successful GrantAccess run. -/
theorem grantAccess_ok_inversion {ctx : Ctx} {st st' : ChainState}
    {sid target : String} {res : Json}
    (h : GrantAccess ctx st sid target = .ok (st', res)) :
    res = grantRecordOf ctx sid target ∧
    st' = { st with
            world := alistPut st.world ("grant-" ++ sid ++ "-" ++ target) res }
    := by
  unfold GrantAccess at h
  split_ifs at h
  injection h with h'
  injection h' with hst hres
  exact ⟨hres.symm, by rw [← hst, hres]⟩

/-- Whatever record RevokeDegree rewrites satisfies the status shape: its
status property is the string REVOKED. -/
theorem degreeStatusOk_revoked :
    ∀ (degree : Json) (reason ts msp : String),
      DegreeStatusOk (jSet (jSet (jSet (jSet degree "status"
        (.jstr "REVOKED")) "revocationReason" (.jstr reason))
        "revokedAt" (.jstr ts)) "revokedBy" (.jstr msp))
  | .jobj fs, reason, ts, msp => by
      intro _
      right
      simp only [jSet, jGet]
      rw [fieldsLookup_fieldsSet_ne _ _ _ _ (by decide)]
      rw [fieldsLookup_fieldsSet_ne _ _ _ _ (by decide)]
      rw [fieldsLookup_fieldsSet_ne _ _ _ _ (by decide)]
      exact fieldsLookup_fieldsSet_self fs "status" _
  | .jstr v, reason, ts, msp => by
      intro hd; simp [jSet, jGet] at hd
  | .jnum v, reason, ts, msp => by
      intro hd; simp [jSet, jGet] at hd
  | .jbool v, reason, ts, msp => by
      intro hd; simp [jSet, jGet] at hd

/-- Every committed chaincode transaction preserves the degree status
invariant. -/
theorem chainStep_preserves_worldInv {st st' : ChainState}
    (h : ChainStep st st') (hinv : WorldDegreeInv st) : WorldDegreeInv st' := by
  cases h with
  | issue ctx st st' dId a1 a2 a3 a4 a5 a6 a7 a8 res heq =>
      obtain ⟨_, _, hres, hst⟩ := issueDegree_ok_inversion heq
      subst hst
      intro e he
      rcases mem_alistPut he with rfl | hm
      · intro _
        left
        rw [hres]
        simp [degreeRecord, fieldsOf, jGet, fieldsLookup]
      · exact hinv e hm
  | revoke ctx st st' dId reason res heq =>
      obtain ⟨degree, hl, hs, hres, hst⟩ := revokeDegree_ok_inversion heq
      subst hst
      intro e he
      rcases mem_alistPut he with rfl | hm
      · rw [hres]
        exact degreeStatusOk_revoked degree reason ctx.timestamp ctx.mspId
      · exact hinv e hm
  | update ctx st st' sid tmap res heq =>
      obtain ⟨transcript, gpa, _, _, _, _, _, _, hst⟩ :=
        updateTranscript_ok_inversion heq
      subst hst
      intro e he
      rcases mem_alistPut he with rfl | hm
      · intro hd
        simp [transcriptMetadataRecord, fieldsOf, jGet, fieldsLookup] at hd
      · exact hinv e hm
  | grant ctx st st' sid target res heq =>
      obtain ⟨hres, hst⟩ := grantAccess_ok_inversion heq
      subst hst
      intro e he
      rcases mem_alistPut he with rfl | hm
      · intro hd
        rw [hres] at hd
        simp [grantRecordOf, fieldsOf, jGet, fieldsLookup] at hd
      · exact hinv e hm

/-- No committed transaction turns a REVOKED record at a key back into an
ACTIVE degree record at that key. -/
theorem chainStep_no_unrevoke {st st' : ChainState} {k : String} {v : Json}
    (h : ChainStep st st') (hv : alistGet st.world k = some v)
    (hrev : jGet v "status" = some (.jstr "REVOKED")) :
    ∀ v', alistGet st'.world k = some v' →
      jGet v' "docType" = some (.jstr "degree") →
      jGet v' "status" = some (.jstr "REVOKED") := by
  cases h with
  | issue ctx st st' dId a1 a2 a3 a4 a5 a6 a7 a8 res heq =>
      obtain ⟨_, hex, _, hst⟩ := issueDegree_ok_inversion heq
      subst hst
      by_cases hdk : dId = k
      · subst hdk
        simp [DegreeExists, hv] at hex
      · intro v' hv' _
        rw [alistGet_put_ne _ _ _ _ hdk, hv] at hv'
        injection hv' with hv''
        rw [← hv'']
        exact hrev
  | revoke ctx st st' dId reason res heq =>
      obtain ⟨degree, hl, hs, hres, hst⟩ := revokeDegree_ok_inversion heq
      subst hst
      by_cases hdk : dId = k
      · subst hdk
        rw [hv] at hl
        injection hl with hl'
        rw [← hl'] at hs
        exact absurd hrev hs
      · intro v' hv' _
        rw [alistGet_put_ne _ _ _ _ hdk, hv] at hv'
        injection hv' with hv''
        rw [← hv'']
        exact hrev
  | update ctx st st' sid tmap res heq =>
      obtain ⟨transcript, gpa, _, _, _, _, _, _, hst⟩ :=
        updateTranscript_ok_inversion heq
      subst hst
      by_cases hdk : ("transcript-" ++ sid) = k
      · intro v' hv' hd
        rw [← hdk, alistGet_put_self] at hv'
        injection hv' with hv''
        rw [← hv''] at hd
        simp [transcriptMetadataRecord, fieldsOf, jGet, fieldsLookup] at hd
      · intro v' hv' _
        rw [alistGet_put_ne _ _ _ _ hdk, hv] at hv'
        injection hv' with hv''
        rw [← hv'']
        exact hrev
  | grant ctx st st' sid target res heq =>
      obtain ⟨hres, hst⟩ := grantAccess_ok_inversion heq
      subst hst
      by_cases hdk : ("grant-" ++ sid ++ "-" ++ target) = k
      · intro v' hv' hd
        rw [← hdk, alistGet_put_self] at hv'
        injection hv' with hv''
        rw [← hv'', hres] at hd
        simp [grantRecordOf, fieldsOf, jGet, fieldsLookup] at hd
      · intro v' hv' _
        rw [alistGet_put_ne _ _ _ _ hdk, hv] at hv'
        injection hv' with hv''
        rw [← hv'']
        exact hrev

/-- Every reachable ledger satisfies the degree status invariant. -/
theorem reachable_worldDegreeInv {st : ChainState}
    (h : ReachableChainState st) : WorldDegreeInv st := by
  unfold ReachableChainState at h
  induction h with
  | refl => intro e he; simp [initialChainState] at he
  | tail hsteps hstep ih => exact chainStep_preserves_worldInv hstep ih

/-- C4: every reachable degree record (docType degree) has status ACTIVE
or REVOKED; no committed transaction ever turns a REVOKED record at a key
back into an ACTIVE degree record; and RevokeDegree on an already-REVOKED
record fails with the already revoked error for that id — and, errors
committing nothing in this model, the record stands unchanged. -/
theorem degree_status_two_state_machine :
    (∀ st, ReachableChainState st → WorldDegreeInv st) ∧
    (∀ (st st' : ChainState) (k : String) (v : Json), ChainStep st st' →
      alistGet st.world k = some v →
      jGet v "status" = some (.jstr "REVOKED") →
      ∀ v', alistGet st'.world k = some v' →
        jGet v' "docType" = some (.jstr "degree") →
        jGet v' "status" = some (.jstr "REVOKED")) ∧
    (∀ (ctx : Ctx) (st : ChainState) (dId reason : String) (v : Json),
      ctx.ou = some "admin" → alistGet st.world dId = some v →
      jGet v "status" = some (.jstr "REVOKED") →
      RevokeDegree ctx st dId reason =
        .error ("Degree " ++ dId ++ " is already revoked")) := by
  refine ⟨fun st h => reachable_worldDegreeInv h,
    fun st st' k v h hv hrev => chainStep_no_unrevoke h hv hrev, ?_⟩
  intro ctx st dId reason v hadmin hv hrev
  have hrole : checkRole ctx "admin" = .ok () := by simp [checkRole, hadmin]
  simp [RevokeDegree, hrole, hv, hrev]

/-- C4 witness: issue then revoke D1, check the invariant on the reached
ledger, and revoke a second time. -/
theorem degree_status_two_state_machine_witness :
    WorldDegreeInv wState2 ∧
    RevokeDegree ctxAdmin wState2 "D1" "again" =
      .error ("Degree " ++ "D1" ++ " is already revoked") := by
  have hissue : IssueDegree ctxAdmin initialChainState "D1" "S1" "Bachelor"
      "Nguyen Van A" "KMA" "CNTT" "Gioi" "2025-01-01" "" =
        .ok (wState1, wDegree) := rfl
  have hrevoke : RevokeDegree ctxAdmin wState1 "D1" "fraud" =
      .ok (wState2, wDegreeRevoked) := rfl
  have hreach : ReachableChainState wState2 :=
    Relation.ReflTransGen.tail
      (Relation.ReflTransGen.tail Relation.ReflTransGen.refl
        (ChainStep.issue ctxAdmin initialChainState wState1 "D1" "S1"
          "Bachelor" "Nguyen Van A" "KMA" "CNTT" "Gioi" "2025-01-01" ""
          wDegree hissue))
      (ChainStep.revoke ctxAdmin wState1 wState2 "D1" "fraud" wDegreeRevoked
        hrevoke)
  exact ⟨degree_status_two_state_machine.1 wState2 hreach,
    degree_status_two_state_machine.2.2 ctxAdmin wState2 "D1" "again"
      wDegreeRevoked rfl rfl rfl⟩

/-! ## Claim C8: closed error classification -/

/-- C8: every failure leaving the transaction layer is classified
deterministically into exactly one kind: the issueDegree catch rethrows
ValidationError unchanged and otherwise yields exactly one of
ConnectionError, EndorsementError, ConflictError, or a generic internal
error whose message textually contains the original message; and the
error-handler fallback maps every message detectFabricError recognizes to
one of its five fixed codes, while every unrecognized non-empty message
surfaces as INTERNAL_SERVER_ERROR carrying the original message — nothing
is swallowed, every branch produces a response. -/
theorem ledger_failures_classified :
    (∀ m : String,
      classifyIssueDegreeError (.other m) =
          .connectionError
            "Failed to connect to Fabric network. Service unavailable." ∨
      classifyIssueDegreeError (.other m) =
          .endorsementError
            "Transaction endorsement failed. Endorsement policy not satisfied." ∨
      classifyIssueDegreeError (.other m) =
          .conflictError
            "Transaction conflict detected. Please retry the operation." ∨
      (classifyIssueDegreeError (.other m) =
          .genericError ("Failed to issue degree: " ++ m) ∧
       jsIncludes ("Failed to issue degree: " ++ m) m = true)) ∧
    (∀ m : String,
      classifyIssueDegreeError (.validation m) = .validationError m) ∧
    (∀ (m : String) (c : FabricErrorClass), detectFabricError m = some c →
      c.errorCode = "GRPC_UNAVAILABLE" ∨
      c.errorCode = "ENDORSEMENT_POLICY_FAILURE" ∨
      c.errorCode = "MVCC_READ_CONFLICT" ∨
      c.errorCode = "TRANSIENT_DATA_MISSING" ∨
      c.errorCode = "CHAINCODE_VALIDATION_ERROR") ∧
    (∀ m : String, ¬ m = "" → detectFabricError m = none →
      errorHandler (.genericError m) =
        ⟨500, "INTERNAL_SERVER_ERROR", m⟩) := by
  refine ⟨?_, ?_, ?_, ?_⟩
  · intro m
    simp only [classifyIssueDegreeError]
    split_ifs with h1 h2 h3
    · exact Or.inl rfl
    · exact Or.inr (Or.inl rfl)
    · exact Or.inr (Or.inr (Or.inl rfl))
    · exact Or.inr (Or.inr (Or.inr ⟨rfl, jsIncludes_append_left _ m⟩))
  · intro m
    rfl
  · intro m c h
    simp only [detectFabricError] at h
    split_ifs at h <;>
      first
        | exact Option.noConfusion h
        | (injection h with h'; rw [← h']; simp)
  · intro m hne hnone
    simp [errorHandler, errorHandlerFallback, hnone, hne]

/-- C8 witness at a concrete unrecognized message and a concrete
ValidationError. -/
theorem ledger_failures_classified_witness :
    errorHandler (.genericError "boom") =
      ⟨500, "INTERNAL_SERVER_ERROR", "boom"⟩ ∧
    classifyIssueDegreeError (.validation "bad input") =
      .validationError "bad input" :=
  ⟨ledger_failures_classified.2.2.2 "boom" (by decide) (by decide),
   ledger_failures_classified.2.1 "bad input"⟩

/-- C9 witness: issuing D1 twice on the fresh ledger. -/
theorem issueDegree_duplicate_rejected_witness :
    IssueDegree ctxAdmin wState1 "D1" "S1" "Bachelor" "Nguyen Van A" "KMA"
      "CNTT" "Gioi" "2025-01-01" "" =
        .error ("Degree " ++ "D1" ++ " already exists") ∧
    alistGet wState1.world "D1" = some wDegree ∧
    jGet wDegree "status" = some (.jstr "ACTIVE") :=
  issueDegree_duplicate_rejected ctxAdmin ctxAdmin initialChainState wState1
    "D1" "S1" "Bachelor" "Nguyen Van A" "KMA" "CNTT" "Gioi" "2025-01-01" ""
    "S1" "Bachelor" "Nguyen Van A" "KMA" "CNTT" "Gioi" "2025-01-01" ""
    wDegree rfl rfl

/-! ## Claim C1: no client-side hash verification -/

/-- C1 counterexample: on a valid private-transcript submission whose
endorsement payload carries the transcriptHash not-a-hash — a value that
differs from the sha256 of the serialized private fields, as it differs
from every sha256 hex digest by its length — addPrivateTranscript does not
fail with a ValidationError: it succeeds and returns that payload hash
verbatim, so no local hash is computed and no comparison happens. -/
theorem addPrivateTranscript_no_mismatch_detection :
    addPrivateTranscript cexTranscriptInput "tx1"
        (.payload cexEndorsePayload) (.ok ()) = .ok cexRouteResult ∧
    ¬ Json.jstr "not-a-hash" =
        Json.jstr (specLocalTranscriptHash cexTranscriptInput) := by
  refine ⟨rfl, ?_⟩
  intro hcontra
  have h1 : "not-a-hash" = specLocalTranscriptHash cexTranscriptInput := by
    injection hcontra
  have h2 := congrArg String.length h1
  simp only [specLocalTranscriptHash, sha256Hex_length] at h2
  exact absurd h2 (by decide)

/-- C1 amended: addPrivateTranscript serializes the private fields into the
transient map but computes no sha256 of them and performs no comparison —
whenever validation, endorsement and submission succeed it returns the
transcriptHash field of the endorsement payload verbatim, whatever that
value is; ValidationError arises only from input validation. -/
theorem addPrivateTranscript_forwards_payload_hash
    (t : TranscriptInput) (txId : String) (j : Json)
    (submitRes : Except String Unit) (r : AddTranscriptResult)
    (h : addPrivateTranscript t txId (.payload j) submitRes = .ok r) :
    r.transcriptHash = jGet j "transcriptHash" ∧ r.success = true ∧
    r.transactionId = txId ∧ r.studentId = t.studentId := by
  unfold addPrivateTranscript at h
  cases hval : validateTranscriptData t with
  | error e => rw [hval] at h; simp at h
  | ok u =>
      rw [hval] at h
      cases u
      cases submitRes with
      | error m => simp at h
      | ok u2 =>
          cases u2
          have h2 := Except.ok.inj h
          rw [← h2]
          exact ⟨rfl, rfl, rfl, rfl⟩

/-- C1 amended witness at the concrete submission. -/
theorem addPrivateTranscript_forwards_payload_hash_witness :
    cexRouteResult.transcriptHash = jGet cexEndorsePayload "transcriptHash" ∧
    cexRouteResult.success = true ∧
    cexRouteResult.transactionId = "tx1" ∧
    cexRouteResult.studentId = cexTranscriptInput.studentId :=
  addPrivateTranscript_forwards_payload_hash cexTranscriptInput "tx1"
    cexEndorsePayload (.ok ()) cexRouteResult rfl

/-! ## Claim C2: which bytes the published hash covers -/

/-- C2 counterexample: for the concrete non-empty private-fields map, the
chaincode commits and the transcriptHash it returns and stores in the
PublicMetadata record is not the sha256 of the client serialization of the
private fields: the chaincode hashes the full private record, which also
contains studentId, updatedAt and updatedBy. -/
theorem updateTranscript_hash_differs_from_spec_client_hash :
    UpdateTranscript ctxAdmin initialChainState "S1"
        (clientTransientMap cexTranscriptInput) =
      .ok (cexStateAfter, cexUpdateResult) ∧
    ¬ cexUpdateResult.transcriptHash =
        specLocalTranscriptHash cexTranscriptInput := by
  refine ⟨rfl, ?_⟩
  decide

/-- C2 amended: for every private-fields map the chaincode accepts, the
transcriptHash stored in the resulting PublicMetadata record equals the
sha256 of exactly the serialized private record stored in the private data
collection under the student id (a record holding studentId, transcript,
gpa, personalInfo, updatedAt, updatedBy), and the endorsement result
carries the same hash; it is not the hash of the bare client-side
private-fields map, and the client computes no hash at all. -/
theorem updateTranscript_public_hash_matches_stored_private_bytes
    (ctx : Ctx) (st : ChainState) (sid : String) (tmap : TransientMap)
    (st' : ChainState) (res : UpdateTranscriptResult)
    (h : UpdateTranscript ctx st sid tmap = .ok (st', res)) :
    ∃ serialized : String,
      alistGet st'.priv sid = some serialized ∧
      res.transcriptHash = sha256Hex (utf8Bytes serialized) ∧
      (alistGet st'.world ("transcript-" ++ sid)).bind
          (fun m => jGet m "transcriptHash") =
        some (.jstr (sha256Hex (utf8Bytes serialized))) := by
  obtain ⟨transcript, gpa, hT, hG, hg, hsucc, hsid, hhash, hst⟩ :=
    updateTranscript_ok_inversion h
  subst hst
  refine ⟨serializeTranscriptData sid transcript gpa
    (tmap.personalInfo.getD (.jobj .nil)) ctx.timestamp ctx.mspId,
    alistGet_put_self _ _ _, hhash, ?_⟩
  rw [alistGet_put_self]
  simp [transcriptMetadataRecord, fieldsOf, jGet, fieldsLookup, Option.bind,
    hhash]

/-- C2 amended witness at the concrete submission. -/
theorem updateTranscript_public_hash_matches_stored_private_bytes_witness :
    ∃ serialized : String,
      alistGet cexStateAfter.priv "S1" = some serialized ∧
      cexUpdateResult.transcriptHash = sha256Hex (utf8Bytes serialized) ∧
      (alistGet cexStateAfter.world ("transcript-" ++ "S1")).bind
          (fun m => jGet m "transcriptHash") =
        some (.jstr (sha256Hex (utf8Bytes serialized))) :=
  updateTranscript_public_hash_matches_stored_private_bytes ctxAdmin
    initialChainState "S1" (clientTransientMap cexTranscriptInput)
    cexStateAfter cexUpdateResult rfl

end BackendFabric
